import Mathlib

/-!
Verification of the Flask static-file server in `main.py`.

The program registers two routes on a Flask app whose root directory is
`public`:

* `GET /` → `index()` → `send_from_directory('public', 'index.html')`
* `GET /<path:path>` → `serve_static(path)` → `send_from_directory('public', path)`

(The `static_folder='public', static_url_path=''` configuration registers a
built-in static route over the same path space with the same
`send_from_directory('public', ...)` behaviour, so one model covers both.)

All interesting behaviour lives in the framework functions the handlers call,
so those are embedded faithfully, running on a POSIX host (where
`werkzeug.security._os_alt_seps` is empty and `os.path.isabs` is
"starts with /"):

* `posixpath.normpath` (CPython `posixpath.py`),
* `posixpath.join` (two-argument form),
* `werkzeug.security.safe_join`,
* `flask.send_from_directory` / `send_file`: `safe_join` the directory and the
  requested name (`None` → 404 NotFound), require `os.path.isfile`
  (otherwise 404), read the file and answer 200 with its bytes and a
  content type from `mimetypes.guess_type` on the basename (fallback
  `application/octet-stream`); an `OSError` while opening an existing file
  (e.g. `EACCES`) escapes the handler and Flask turns any unhandled
  exception into a 500 response without killing the process,
* `mimetypes.guess_type` as in CPython 3.11.6: `urllib.parse._splittype`
  scheme handling with the `data:` special case, `posixpath.splitext`
  (leading dots of a basename carry no extension), the suffix map
  (`.tgz` → `.tar.gz`, …), the case-sensitive encodings map (`.gz`, …),
  and the built-in strict types table,
* Werkzeug routing: `/` matches exactly; `/<path:path>` matches a leading
  slash followed by one or more characters of which the first is not `/`
  (repeated slashes inside the capture are kept as matched); a rule match
  with a method outside the route's `GET` (plus the automatic
  `HEAD`/`OPTIONS`) answers 405; when no rule matches, `merge_slashes`
  (default on) retries with runs of slashes collapsed and answers a 308
  `RequestRedirect` on success, else 404.

The filesystem is a finite map from normalised path strings (relative to the
process working directory, as the program passes the relative directory
`'public'`) to nodes; file contents are byte lists. Error-page bodies are
abbreviated to their status line: only their fs-independence and statuses are
load-bearing.
-/

/-- A node of the modelled filesystem: a readable regular file with its
content bytes, a regular file whose `open` fails with an `OSError` such as
`EACCES` (permission denied), or a directory. -/
inductive FileNode where
  | file (content : List Nat)
  | unreadable
  | dirNode
deriving DecidableEq, Repr

/-- The filesystem: association list from path strings to nodes. -/
abbrev FileSystem := List (String × FileNode)

/-- Path lookup in the modelled filesystem (first binding wins). -/
def fsLookup : FileSystem → String → Option FileNode
  | [], _ => none
  | (k, n) :: rest, p => if k = p then some n else fsLookup rest p

/-- `os.path.isfile`: true exactly for regular files (readable or not). -/
def isRegularFile (fs : FileSystem) (p : String) : Bool :=
  match fsLookup fs p with
  | some (FileNode.file _) => true
  | some FileNode.unreadable => true
  | _ => false

/-- The bytes of an ASCII string, used for concrete file contents. -/
def strBytes (s : String) : List Nat :=
  s.data.map Char.toNat

/-- Python `str.startswith`, over the underlying character list. -/
def pyStartsWith (s pre : String) : Bool :=
  s.data.take pre.data.length == pre.data

/-- Python `str.lower` for ASCII, over the underlying character list. -/
def pyLower (s : String) : String :=
  String.mk (s.data.map Char.toLower)

/-- Python `str.endswith`, over the underlying character list. -/
def pyEndsWith (s suf : String) : Bool :=
  s.data.reverse.take suf.data.length == suf.data.reverse

/-- Python `str.split(sep)` for a one-character separator: splitting the
empty string gives `[[]]`, and adjacent separators give empty components. -/
def splitOnChar (c : Char) : List Char → List (List Char)
  | [] => [[]]
  | a :: as =>
    if a = c then [] :: splitOnChar c as
    else
      match splitOnChar c as with
      | [] => [[a]]
      | g :: gs => (a :: g) :: gs

/-- `sep.join(comps)` for `sep = '/'`. -/
def joinSegs : List (List Char) → List Char
  | [] => []
  | [s] => s
  | s :: ss => s ++ '/' :: joinSegs ss

/-- The component loop of `posixpath.normpath`: drop empty and `.`
components; on `..`, keep it when the path is relative and nothing has been
kept yet or the last kept component is itself `..`, otherwise pop the last
kept component (or drop the `..` when an absolute path has nothing left to
pop). `acc` holds the kept components in reverse. -/
def pyNormSegs (absFlag : Bool) : List (List Char) → List (List Char) → List (List Char)
  | acc, [] => acc.reverse
  | acc, c :: cs =>
    if c = [] || c = ['.'] then pyNormSegs absFlag acc cs
    else if c = ['.', '.'] then
      if (!absFlag && acc == []) || acc.head? == some ['.', '.'] then
        pyNormSegs absFlag (c :: acc) cs
      else
        match acc with
        | [] => pyNormSegs absFlag [] cs
        | _ :: rest => pyNormSegs absFlag rest cs
    else pyNormSegs absFlag (c :: acc) cs

/-- `posixpath.normpath`: empty path is `.`; one leading slash is kept, two
become two, three or more collapse to one; components are normalised by
`pyNormSegs`; an empty result is `.`. -/
def posixNormpath (path : String) : String :=
  if path.data = [] then "."
  else
    let slashes : Nat :=
      if pyStartsWith path "//" && !pyStartsWith path "///" then 2
      else if pyStartsWith path "/" then 1 else 0
    let comps := splitOnChar '/' path.data
    let out := List.replicate slashes '/' ++ joinSegs (pyNormSegs (slashes > 0) [] comps)
    if out = [] then "." else String.mk out

/-- `posixpath.join` restricted to two arguments, as `safe_join` uses it. -/
def posix_join (a b : String) : String :=
  if pyStartsWith b "/" then b
  else if a = "" || pyEndsWith a "/" then a ++ b
  else a ++ "/" ++ b

/-- `werkzeug.security.safe_join(directory, filename)` on a POSIX host:
normalise a non-empty filename, reject it when it is absolute, is `..` or
starts with `../` (the `_os_alt_seps` scan is vacuous on POSIX), and
otherwise join it under the directory. -/
def safe_join (directory filename : String) : Option String :=
  let d := if directory = "" then "." else directory
  let f := if filename = "" then filename else posixNormpath filename
  if pyStartsWith f "/" || f = ".." || pyStartsWith f "../" then none
  else some (posix_join d f)

/-- `os.path.basename` on POSIX: everything after the last `/`. -/
def afterLastSlash (l : List Char) : List Char :=
  (l.reverse.takeWhile (fun c => c ≠ '/')).reverse

/-- Split a name at its last dot: `some (root, ext)` with
`l = root ++ '.' :: ext` and no dot in `ext`, or `none` when dotless. -/
def splitLastDot : List Char → Option (List Char × List Char)
  | [] => none
  | a :: as =>
    match splitLastDot as with
    | some (r, e) => some (a :: r, e)
    | none => if a = '.' then some ([], as) else none

/-- `posixpath.splitext`: split off the extension at the last dot of the
last path component; a component whose characters before that dot are all
dots (e.g. `.html`, `..html`) has no extension. -/
def pySplitext (p : String) : String × String :=
  let l := p.data
  let base := afterLastSlash l
  let dir := l.take (l.length - base.length)
  match splitLastDot base with
  | none => (p, "")
  | some (root, ext) =>
    if root.any (fun c => c ≠ '.') then (String.mk (dir ++ root), String.mk ('.' :: ext))
    else (p, "")

/-- CPython 3.11 `mimetypes` `_suffix_map_default` (keys looked up on the
lowercased extension). -/
def suffixMap : List (String × String) :=
  [(".svgz", ".svg.gz"), (".tgz", ".tar.gz"), (".taz", ".tar.gz"),
   (".tz", ".tar.gz"), (".tbz2", ".tar.bz2"), (".txz", ".tar.xz")]

/-- CPython 3.11 `mimetypes` `_encodings_map_default` (looked up on the
extension case-sensitively; only the keys matter for the content type). -/
def encodingsMap : List (String × String) :=
  [(".gz", "gzip"), (".Z", "compress"), (".bz2", "bzip2"), (".xz", "xz"),
   (".br", "br")]

/-- CPython 3.11.6 `mimetypes` `_types_map_default`, the strict table
(`types_map[True]`) built by `MimeTypes.__init__`. Additional entries
merged at `mimetypes.init()` time from host files such as
`/etc/mime.types` are deployment configuration, not part of the program,
and are outside the model. -/
def typesMap : List (String × String) :=
  [(".3g2", "audio/3gpp2"), (".3gp", "audio/3gpp"), (".3gpp", "audio/3gpp"),
   (".3gpp2", "audio/3gpp2"), (".a", "application/octet-stream"),
   (".aac", "audio/aac"), (".adts", "audio/aac"), (".ai", "application/postscript"),
   (".aif", "audio/x-aiff"), (".aifc", "audio/x-aiff"), (".aiff", "audio/x-aiff"),
   (".ass", "audio/aac"), (".au", "audio/basic"), (".avi", "video/x-msvideo"),
   (".avif", "image/avif"), (".bat", "text/plain"), (".bcpio", "application/x-bcpio"),
   (".bin", "application/octet-stream"), (".bmp", "image/bmp"), (".c", "text/plain"),
   (".cdf", "application/x-netcdf"), (".cpio", "application/x-cpio"),
   (".csh", "application/x-csh"), (".css", "text/css"), (".csv", "text/csv"),
   (".dll", "application/octet-stream"), (".doc", "application/msword"),
   (".dot", "application/msword"), (".dvi", "application/x-dvi"),
   (".eml", "message/rfc822"), (".eps", "application/postscript"),
   (".etx", "text/x-setext"), (".exe", "application/octet-stream"),
   (".gif", "image/gif"), (".gtar", "application/x-gtar"), (".h", "text/plain"),
   (".h5", "application/x-hdf5"), (".hdf", "application/x-hdf"),
   (".heic", "image/heic"), (".heif", "image/heif"), (".htm", "text/html"),
   (".html", "text/html"), (".ico", "image/vnd.microsoft.icon"),
   (".ief", "image/ief"), (".jpe", "image/jpeg"), (".jpeg", "image/jpeg"),
   (".jpg", "image/jpeg"), (".js", "application/javascript"),
   (".json", "application/json"), (".ksh", "text/plain"),
   (".latex", "application/x-latex"), (".loas", "audio/aac"),
   (".m1v", "video/mpeg"), (".m3u", "application/vnd.apple.mpegurl"),
   (".m3u8", "application/vnd.apple.mpegurl"), (".man", "application/x-troff-man"),
   (".me", "application/x-troff-me"), (".mht", "message/rfc822"),
   (".mhtml", "message/rfc822"), (".mif", "application/x-mif"),
   (".mjs", "application/javascript"), (".mov", "video/quicktime"),
   (".movie", "video/x-sgi-movie"), (".mp2", "audio/mpeg"), (".mp3", "audio/mpeg"),
   (".mp4", "video/mp4"), (".mpa", "video/mpeg"), (".mpe", "video/mpeg"),
   (".mpeg", "video/mpeg"), (".mpg", "video/mpeg"), (".ms", "application/x-troff-ms"),
   (".n3", "text/n3"), (".nc", "application/x-netcdf"), (".nq", "application/n-quads"),
   (".nt", "application/n-triples"), (".nws", "message/rfc822"),
   (".o", "application/octet-stream"), (".obj", "application/octet-stream"),
   (".oda", "application/oda"), (".opus", "audio/opus"),
   (".p12", "application/x-pkcs12"), (".p7c", "application/pkcs7-mime"),
   (".pbm", "image/x-portable-bitmap"), (".pdf", "application/pdf"),
   (".pfx", "application/x-pkcs12"), (".pgm", "image/x-portable-graymap"),
   (".pl", "text/plain"), (".png", "image/png"), (".pnm", "image/x-portable-anymap"),
   (".pot", "application/vnd.ms-powerpoint"), (".ppa", "application/vnd.ms-powerpoint"),
   (".ppm", "image/x-portable-pixmap"), (".pps", "application/vnd.ms-powerpoint"),
   (".ppt", "application/vnd.ms-powerpoint"), (".ps", "application/postscript"),
   (".pwz", "application/vnd.ms-powerpoint"), (".py", "text/x-python"),
   (".pyc", "application/x-python-code"), (".pyo", "application/x-python-code"),
   (".qt", "video/quicktime"), (".ra", "audio/x-pn-realaudio"),
   (".ram", "application/x-pn-realaudio"), (".ras", "image/x-cmu-raster"),
   (".rdf", "application/xml"), (".rgb", "image/x-rgb"),
   (".roff", "application/x-troff"), (".rtx", "text/richtext"),
   (".sgm", "text/x-sgml"), (".sgml", "text/x-sgml"), (".sh", "application/x-sh"),
   (".shar", "application/x-shar"), (".snd", "audio/basic"),
   (".so", "application/octet-stream"), (".src", "application/x-wais-source"),
   (".srt", "text/plain"), (".sv4cpio", "application/x-sv4cpio"),
   (".sv4crc", "application/x-sv4crc"), (".svg", "image/svg+xml"),
   (".swf", "application/x-shockwave-flash"), (".t", "application/x-troff"),
   (".tar", "application/x-tar"), (".tcl", "application/x-tcl"),
   (".tex", "application/x-tex"), (".texi", "application/x-texinfo"),
   (".texinfo", "application/x-texinfo"), (".tif", "image/tiff"),
   (".tiff", "image/tiff"), (".tr", "application/x-troff"),
   (".trig", "application/trig"), (".tsv", "text/tab-separated-values"),
   (".txt", "text/plain"), (".ustar", "application/x-ustar"),
   (".vcf", "text/x-vcard"), (".vtt", "text/vtt"), (".wasm", "application/wasm"),
   (".wav", "audio/x-wav"), (".webm", "video/webm"),
   (".webmanifest", "application/manifest+json"), (".wiz", "application/msword"),
   (".wsdl", "application/xml"), (".xbm", "image/x-xbitmap"),
   (".xlb", "application/vnd.ms-excel"), (".xls", "application/vnd.ms-excel"),
   (".xml", "text/xml"), (".xpdl", "application/xml"), (".xpm", "image/x-xpixmap"),
   (".xsl", "application/xml"), (".xwd", "image/x-xwindowdump"),
   (".zip", "application/zip")]

/-- The `while` loop of `guess_type`: as long as the lowercased extension is
a suffix-map key, re-split `base ++` the replacement. Every replacement ends
in an extension outside the map's domain, so the loop stabilises after one
substitution; the fuel bound is never reached with the default map. -/
def applySuffixMap : Nat → String × String → String × String
  | 0, be => be
  | fuel + 1, (base, ext) =>
    match List.lookup (pyLower ext) suffixMap with
    | some repl => applySuffixMap fuel (pySplitext (base ++ repl))
    | none => (base, ext)

/-- `urllib.parse._splittype`: an anchored match of `([^/:]+):(.*)` — a
nonempty run of characters other than `/` and `:` up to the first colon is
the scheme (returned lowercased), the remainder the data. -/
def splitType (l : List Char) : Option (List Char × List Char) :=
  let pre := l.takeWhile (fun c => c ≠ '/' && c ≠ ':')
  match l.drop pre.length with
  | ':' :: r => if pre = [] then none else some (pre.map Char.toLower, r)
  | _ => none

/-- The `data:` branch of `guess_type` (Python 3.11): the mediatype is what
precedes the first `;` before the first comma (or the comma), defaulting to
`text/plain` when it holds `=` or lacks `/`; no comma means no type. -/
def dataUrlMime (rest : List Char) : Option String :=
  if rest.contains ',' then
    let beforeComma := rest.takeWhile (fun c => c ≠ ',')
    let ty :=
      if beforeComma.contains ';' then beforeComma.takeWhile (fun c => c ≠ ';')
      else beforeComma
    if ty.contains '=' || !ty.contains '/' then some "text/plain"
    else some (String.mk ty)
  else none

/-- The extension pipeline of `mimetypes.guess_type` after scheme handling
(Python 3.11): `posixpath.splitext`, the lowercased suffix-map loop, the
case-sensitive encodings-map strip, then the strict types-map lookup of the
lowercased extension (Flask passes `strict=True`, so the non-strict table
is unreachable). -/
def guessTypeExt (url : String) : Option String :=
  let be := applySuffixMap 4 (pySplitext url)
  let be2 := if (List.lookup be.2 encodingsMap).isSome then pySplitext be.1 else be
  List.lookup (pyLower be2.2) typesMap

/-- `mimetypes.guess_type` (CPython 3.11.6), content-type component only:
split a scheme off the name, handle `data:` URLs specially, and otherwise
run the extension pipeline. -/
def guess_type (url : String) : Option String :=
  match splitType url.data with
  | some (scheme, rest) =>
    if scheme = "data".data then dataUrlMime rest
    else guessTypeExt (String.mk rest)
  | none => guessTypeExt url

/-- The Content-Type Flask serves for the file at `p`: werkzeug's
`send_file` guesses with `mimetypes.guess_type` on the download name
`os.path.basename(p)` and falls back to `application/octet-stream` when no
type is known. -/
def guessMimeType (p : String) : String :=
  match guess_type (String.mk (afterLastSlash p.data)) with
  | some t => t
  | none => "application/octet-stream"

/-- An HTTP response: status code, body bytes, content type. -/
structure Response where
  status : Nat
  body : List Nat
  contentType : String
deriving DecidableEq, Repr

/-- Flask's `NotFound` response, body abbreviated to the status line. -/
def notFoundResp : Response :=
  { status := 404, body := strBytes "404 Not Found", contentType := "text/html" }

/-- Flask's `MethodNotAllowed` response, body abbreviated. -/
def methodNotAllowedResp : Response :=
  { status := 405, body := strBytes "405 Method Not Allowed", contentType := "text/html" }

/-- Flask's `InternalServerError` response for an unhandled exception
(e.g. `PermissionError` while opening the file), body abbreviated. -/
def internalErrorResp : Response :=
  { status := 500, body := strBytes "500 Internal Server Error", contentType := "text/html" }

/-- Flask's automatic `OPTIONS` response: 200 with an empty body, produced
without invoking the route handler. -/
def optionsResp : Response :=
  { status := 200, body := [], contentType := "text/html" }

/-- Werkzeug's `RequestRedirect` answer: a permanent redirect (status 308)
to the path with repeated slashes collapsed, issued during URL matching
before any handler or method dispatch; body abbreviated with the target. -/
def redirectResp (loc : String) : Response :=
  { status := 308, body := strBytes ("308 Permanent Redirect " ++ loc),
    contentType := "text/html" }

/-- `flask.send_from_directory(directory, path)`: `safe_join`, then require a
regular file, then serve its bytes with the guessed content type; a file
whose `open` raises becomes Flask's 500. -/
def send_from_directory (fs : FileSystem) (directory filename : String) : Response :=
  match safe_join directory filename with
  | none => notFoundResp
  | some p =>
    match fsLookup fs p with
    | some (FileNode.file content) =>
      { status := 200, body := content, contentType := guessMimeType p }
    | some FileNode.unreadable => internalErrorResp
    | some FileNode.dirNode => notFoundResp
    | none => notFoundResp

/-- The `index` handler: `send_from_directory('public', 'index.html')`. -/
def index (fs : FileSystem) : Response :=
  send_from_directory fs "public" "index.html"

/-- The `serve_static` handler: `send_from_directory('public', path)`. -/
def serve_static (fs : FileSystem) (path : String) : Response :=
  send_from_directory fs "public" path

/-- Werkzeug URL matching for the app's two rules: `/` yields the entry-file
name handled by `index`; `/<path:path>` (a slash then one or more characters,
the first not `/`) yields the captured `path` handled by `serve_static`;
anything else matches no rule. -/
def route_match (p : String) : Option String :=
  match p.data with
  | [] => none
  | a :: rest =>
    if a = '/' then
      match rest with
      | [] => some "index.html"
      | c :: _ => if c = '/' then none else some (String.mk rest)
    else none

/-- `re.sub("/\x7b2,\x7d", "/", path)`: collapse each run of slashes to a
single slash, as Werkzeug's `merge_slashes` retry does. The flag records
whether the previous character was a slash. -/
def mergeSlashesAux (prevSlash : Bool) : List Char → List Char
  | [] => []
  | a :: as =>
    if a = '/' then
      if prevSlash then mergeSlashesAux true as
      else '/' :: mergeSlashesAux true as
    else a :: mergeSlashesAux false as

/-- Collapse every run of repeated slashes in a path to one slash. -/
def mergeSlashes (l : List Char) : List Char :=
  mergeSlashesAux false l

/-- Werkzeug `merge_slashes` (default `True` on the `Map` and both rules):
a request path triggers the 308 redirect exactly when no rule matches it
directly but one matches after collapsing repeated slashes. -/
def mergeRedirects (p : String) : Bool :=
  (route_match p).isNone && (route_match (String.mk (mergeSlashes p.data))).isSome

/-- HTTP request methods. -/
inductive Method where
  | GET | HEAD | OPTIONS | POST | PUT | DELETE | PATCH
deriving DecidableEq, Repr

/-- An HTTP request: method and URL path. -/
structure Request where
  method : Method
  path : String
deriving DecidableEq, Repr

/-- One full request dispatch. When no rule matches the path directly,
Werkzeug retries with repeated slashes merged: a match there is answered by
a 308 `RequestRedirect` to the collapsed path (whatever the method), and a
second failure by 404. On a direct match, `GET` runs the handler, `HEAD`
runs it with the body stripped by the WSGI layer, `OPTIONS` is answered
automatically, and every other method is 405 (the routes allow only `GET`
plus the automatic `HEAD`/`OPTIONS`). -/
def handle_request (fs : FileSystem) (req : Request) : Response :=
  match route_match req.path with
  | none =>
    match route_match (String.mk (mergeSlashes req.path.data)) with
    | some _ => redirectResp (String.mk (mergeSlashes req.path.data))
    | none => notFoundResp
  | some t =>
    match req.method with
    | Method.GET => serve_static fs t
    | Method.HEAD => { serve_static fs t with body := [] }
    | Method.OPTIONS => optionsResp
    | _ => methodNotAllowedResp

/-- The serving loop: requests are handled in order against the filesystem
state, which a handler can in principle replace; the embedded handlers are
pure readers, so the state they pass on is the one they received. Returns
the responses and the final filesystem. -/
def runRequests (fs : FileSystem) : List Request → List Response × FileSystem
  | [] => ([], fs)
  | r :: rs =>
    let resp := handle_request fs r
    let (resps, fs2) := runRequests fs rs
    (resp :: resps, fs2)

/-- A string is a canonical relative path — the form in which a regular
file under the root directory is named by its actual path — when it is a
fixed point of `posixpath.normpath`, is not absolute, and neither is nor
begins with a parent-directory segment. -/
def canonicalRel (r : String) : Bool :=
  posixNormpath r == r && !pyStartsWith r "/" && r != ".." && !pyStartsWith r "../"

/-- A relative path, resolved against the root directory by POSIX rules
(no symlinks), lands outside the root exactly when its normal form is `..`
or begins with `../`. -/
def wouldEscape (t : String) : Bool :=
  posixNormpath t == ".." || pyStartsWith (posixNormpath t) "../"

/-- The request paths whose parent-directory segments would resolve outside
the root: a leading slash followed by a relative part that `wouldEscape`. -/
def escapesRoot (p : String) : Bool :=
  match p.data with
  | [] => false
  | a :: rest => a == '/' && wouldEscape (String.mk rest)

/-- The request paths that resolve to an existing regular file under the
root: a rule must match, `safe_join` must accept the captured path, and the
joined path must name a regular file. -/
def resolvesToFile (fs : FileSystem) (p : String) : Bool :=
  match route_match p with
  | none => false
  | some t =>
    match safe_join "public" t with
    | none => false
    | some j => isRegularFile fs j


/-! ## Helper lemmas -/

theorem string_eta (s : String) : String.mk s.data = s :=
  rfl

/-- The serving loop never changes the filesystem: the handlers are pure
readers. -/
theorem runRequests_snd (fs : FileSystem) (rs : List Request) :
    (runRequests fs rs).2 = fs := by
  induction rs with
  | nil => rfl
  | cons r rs ih => simpa [runRequests] using ih

/-- The responses of the loop are the pointwise responses of the handler. -/
theorem runRequests_fst (fs : FileSystem) (rs : List Request) :
    (runRequests fs rs).1 = rs.map (handle_request fs) := by
  induction rs with
  | nil => rfl
  | cons r rs ih => simpa [runRequests] using ih

/-- `safe_join` under any directory rejects a filename whose normal form
escapes upward. -/
theorem safe_join_none_of_escape (d t : String) (h : wouldEscape t = true) :
    safe_join d t = none := by
  have ht : t ≠ "" := by
    intro h0
    subst h0
    exact absurd h (by decide)
  have h1 : posixNormpath t = ".." ∨ pyStartsWith (posixNormpath t) "../" = true := by
    rw [wouldEscape, Bool.or_eq_true, beq_iff_eq] at h
    exact h
  unfold safe_join
  simp only [if_neg ht]
  rcases h1 with h1 | h1
  · simp [h1]
  · simp [h1]

/-- The normal form of a slash-leading path is absolute: it never is `..`
nor begins with `../`, so such a path never escapes upward. -/
theorem wouldEscape_absolute (l : List Char) :
    wouldEscape (String.mk ('/' :: l)) = false := by
  obtain ⟨out2, hout⟩ :
      ∃ out2, (posixNormpath (String.mk ('/' :: l))).data = '/' :: out2 := by
    simp only [posixNormpath]
    cases pyStartsWith (String.mk ('/' :: l)) "//" &&
        !pyStartsWith (String.mk ('/' :: l)) "///" with
    | true => exact ⟨_, rfl⟩
    | false => exact ⟨_, rfl⟩
  have h1 : (posixNormpath (String.mk ('/' :: l)) == "..") = false := by
    rw [beq_eq_false_iff_ne]
    intro h
    have hd := congrArg String.data h
    rw [hout] at hd
    injection hd with hd1 _
    exact absurd hd1 (by decide)
  have h2 : pyStartsWith (posixNormpath (String.mk ('/' :: l))) "../" = false := by
    unfold pyStartsWith
    rw [hout]
    show (('/' :: out2.take 2) == ['.', '.', '/']) = false
    rw [beq_eq_false_iff_ne]
    intro h
    injection h with hd1 _
    exact absurd hd1 (by decide)
  rw [wouldEscape, h1, h2]
  rfl

/-- A `GET` whose path is a leading slash followed by an escaping relative
part is answered by the constant 404 response, whatever the filesystem. -/
theorem handle_escape (fs : FileSystem) (p : String) (h : escapesRoot p = true) :
    handle_request fs { method := Method.GET, path := p } = notFoundResp := by
  cases hp : p.data with
  | nil =>
    rw [escapesRoot, hp] at h
    cases h
  | cons a rest =>
    rw [escapesRoot, hp] at h
    rw [Bool.and_eq_true, beq_iff_eq] at h
    obtain ⟨ha, hw⟩ := h
    subst ha
    cases rest with
    | nil => exact absurd hw (by decide)
    | cons c rest2 =>
      by_cases hc : c = '/'
      · subst hc
        rw [wouldEscape_absolute rest2] at hw
        cases hw
      · have hrm : route_match p = some (String.mk (c :: rest2)) := by
          rw [route_match, hp]
          simp [hc]
        have hsj : safe_join "public" (String.mk (c :: rest2)) = none :=
          safe_join_none_of_escape _ _ hw
        simp [handle_request, hrm, serve_static, send_from_directory, hsj]

/-! ## Claims -/

/-- C1: for every existing regular file under the root directory `public`
(named by its canonical relative path `r`), `GET /r` answers 200 with the
file's bytes and the content type inferred from the file extension by the
standard MIME mapping. -/
theorem get_serves_existing_file (fs : FileSystem) (r : String) (c : List Nat)
    (hcan : canonicalRel r = true)
    (hfile : fsLookup fs ("public/" ++ r) = some (FileNode.file c)) :
    handle_request fs { method := Method.GET, path := "/" ++ r } =
      { status := 200, body := c, contentType := guessMimeType ("public/" ++ r) } := by
  rw [canonicalRel] at hcan
  simp only [Bool.and_eq_true, beq_iff_eq, bne_iff_ne, Bool.not_eq_true'] at hcan
  obtain ⟨⟨⟨h1, h2⟩, h3⟩, h4⟩ := hcan
  have hne : r ≠ "" := by
    intro h0
    rw [h0] at h1
    exact absurd h1 (by decide)
  obtain ⟨c0, cs, hd⟩ : ∃ c0 cs, r.data = c0 :: cs := by
    cases hdata : r.data with
    | nil => exact absurd (String.ext hdata) hne
    | cons x xs => exact ⟨x, xs, rfl⟩
  have hc0 : c0 ≠ '/' := by
    intro h0
    have hsw : pyStartsWith r "/" = true := by
      rw [pyStartsWith, hd, h0]
      show (('/' :: cs).take 1 == ['/']) = true
      simp
    rw [h2] at hsw
    cases hsw
  have hpd : ("/" ++ r).data = '/' :: c0 :: cs := by
    rw [String.data_append, hd]
    rfl
  have hrm : route_match ("/" ++ r) = some r := by
    unfold route_match
    rw [hpd]
    show (if c0 = '/' then none else some (String.mk (c0 :: cs))) = some r
    rw [if_neg hc0, ← hd, string_eta]
  have hf : (if r = "" then r else posixNormpath r) = r := by
    rw [if_neg hne, h1]
  have hpj : posix_join "public" r = "public/" ++ r := by
    unfold posix_join
    rw [h2]
    show (if ("public" : String) = "" || pyEndsWith "public" "/" then "public" ++ r
          else "public" ++ "/" ++ r) = "public/" ++ r
    rw [if_neg (by decide : ¬ ((decide (("public" : String) = "") || pyEndsWith "public" "/") = true))]
    rfl
  have hsj : safe_join "public" r = some ("public/" ++ r) := by
    simp only [safe_join]
    rw [hf, h2, h4, decide_eq_false h3]
    show (if (false || false || false) = true then none
          else some (posix_join (if ("public" : String) = "" then "." else "public") r)) =
        some ("public/" ++ r)
    rw [if_neg (by decide), if_neg (by decide : ¬ ("public" : String) = ""), hpj]
  simp only [handle_request, hrm, serve_static, send_from_directory, hsj, hfile]

/-- C1 witness: root holds `style.css` with bytes `hi`; `GET /style.css`
answers 200 with those bytes and content type `text/css`. -/
theorem get_serves_existing_file_witness :
    canonicalRel "style.css" = true ∧
    guessMimeType ("public/" ++ "style.css") = "text/css" ∧
    handle_request [("public/style.css", FileNode.file [104, 105])]
        { method := Method.GET, path := "/" ++ "style.css" } =
      { status := 200, body := [104, 105],
        contentType := guessMimeType ("public/" ++ "style.css") } :=
  ⟨by decide, by decide,
   get_serves_existing_file [("public/style.css", FileNode.file [104, 105])]
     "style.css" [104, 105] (by decide) (by decide)⟩

/-- C2: a request path whose parent-directory segments would resolve outside
the root gets a non-200 status, and the response is the same whatever the
filesystem holds, so it carries no bytes read from outside the root. -/
theorem traversal_rejected (fs fs2 : FileSystem) (p : String)
    (h : escapesRoot p = true) :
    (handle_request fs { method := Method.GET, path := p }).status ≠ 200 ∧
    handle_request fs { method := Method.GET, path := p } =
      handle_request fs2 { method := Method.GET, path := p } := by
  constructor
  · rw [handle_escape fs p h]
    decide
  · rw [handle_escape fs p h, handle_escape fs2 p h]

/-- C2 witness: `GET /../secret` is rejected even when a file `secret` lies
next to the root, and the response equals the one over an empty
filesystem. -/
theorem traversal_rejected_witness :
    escapesRoot "/../secret" = true ∧
    ((handle_request [("secret", FileNode.file [9])]
        { method := Method.GET, path := "/../secret" }).status ≠ 200 ∧
     handle_request [("secret", FileNode.file [9])]
        { method := Method.GET, path := "/../secret" } =
       handle_request [] { method := Method.GET, path := "/../secret" }) :=
  ⟨by decide,
   traversal_rejected [("secret", FileNode.file [9])] [] "/../secret" (by decide)⟩

/-- C3: `GET /` serves the bytes of `public/index.html` with status 200 and
content type `text/html` when that file exists, and answers 404 when it is
absent. -/
theorem root_serves_entry_file (fs : FileSystem) (c : List Nat) :
    (fsLookup fs "public/index.html" = some (FileNode.file c) →
      handle_request fs { method := Method.GET, path := "/" } =
        { status := 200, body := c, contentType := "text/html" }) ∧
    (fsLookup fs "public/index.html" = none →
      (handle_request fs { method := Method.GET, path := "/" }).status = 404) := by
  have hrm : route_match "/" = some "index.html" := by decide
  have hsj : safe_join "public" "index.html" = some "public/index.html" := by decide
  have hmt : guessMimeType "public/index.html" = "text/html" := by decide
  constructor
  · intro h
    simp only [handle_request, hrm, serve_static, send_from_directory, hsj, h, hmt]
  · intro h
    simp only [handle_request, hrm, serve_static, send_from_directory, hsj, h]
    rfl

/-- C3 witness: with `index.html` holding `<h1>Hi</h1>` the root request
serves it; with an empty root the root request is 404. -/
theorem root_serves_entry_file_witness :
    (fsLookup [("public/index.html", FileNode.file (strBytes "<h1>Hi</h1>"))]
        "public/index.html" = some (FileNode.file (strBytes "<h1>Hi</h1>")) ∧
     handle_request [("public/index.html", FileNode.file (strBytes "<h1>Hi</h1>"))]
        { method := Method.GET, path := "/" } =
       { status := 200, body := strBytes "<h1>Hi</h1>", contentType := "text/html" }) ∧
    (fsLookup ([] : FileSystem) "public/index.html" = none ∧
     (handle_request [] { method := Method.GET, path := "/" }).status = 404) :=
  ⟨⟨by decide,
    (root_serves_entry_file [("public/index.html", FileNode.file (strBytes "<h1>Hi</h1>"))]
      (strBytes "<h1>Hi</h1>")).1 (by decide)⟩,
   ⟨by decide, (root_serves_entry_file [] []).2 (by decide)⟩⟩

/-- C4 counterexample: `GET //missing.png` resolves to no file under the
root, yet the program answers 308 (Werkzeug's merge-slashes
`RequestRedirect` to `/missing.png`), not 404. -/
theorem unresolved_get_claim_counterexample :
    resolvesToFile [] "//missing.png" = false ∧
    (handle_request [] { method := Method.GET, path := "//missing.png" }).status = 308 := by
  constructor
  · decide
  · decide

/-- C4 (amended): a `GET` whose path does not resolve to an existing
regular file under the root (no route, a rejected join, a missing entry, or
a directory) and does not trigger Werkzeug's merge-slashes redirect is
answered 404. -/
theorem unresolved_get_is_404 (fs : FileSystem) (p : String)
    (h : resolvesToFile fs p = false) (hnm : mergeRedirects p = false) :
    (handle_request fs { method := Method.GET, path := p }).status = 404 := by
  cases hrm : route_match p with
  | none =>
    simp only [handle_request, hrm]
    cases hmm : route_match (String.mk (mergeSlashes p.data)) with
    | none =>
      simp only [hmm]
      rfl
    | some t2 =>
      rw [mergeRedirects, hrm, hmm] at hnm
      exact Bool.noConfusion hnm
  | some t =>
    simp only [resolvesToFile, hrm] at h
    simp only [handle_request, hrm, serve_static, send_from_directory]
    cases hsj : safe_join "public" t with
    | none => rfl
    | some j =>
      simp only [hsj, isRegularFile] at h
      cases hfl : fsLookup fs j with
      | none =>
        simp only [hfl]
        rfl
      | some node =>
        simp only [hfl] at h
        cases node with
        | file cont => simp at h
        | unreadable => simp at h
        | dirNode =>
          simp only [hfl]
          rfl

/-- C4 witness: `GET /missing.png` over an empty root is 404 (and no
merge-slashes redirect applies). -/
theorem unresolved_get_is_404_witness :
    resolvesToFile [] "/missing.png" = false ∧
    mergeRedirects "/missing.png" = false ∧
    (handle_request [] { method := Method.GET, path := "/missing.png" }).status = 404 :=
  ⟨by decide, by decide, unresolved_get_is_404 [] "/missing.png" (by decide) (by decide)⟩

/-- C5: `GET /` and `GET /index.html` produce identical body bytes (both
dispatch to `send_from_directory fs "public" "index.html"`). -/
theorem root_body_eq_index_html_body (fs : FileSystem) :
    (handle_request fs { method := Method.GET, path := "/" }).body =
      (handle_request fs { method := Method.GET, path := "/index.html" }).body :=
  rfl

/-- C6: repeating one `GET` request `n` times yields the same response every
time and leaves the filesystem state unchanged. -/
theorem get_idempotent (fs : FileSystem) (req : Request) (n : Nat)
    (_hm : req.method = Method.GET) :
    (runRequests fs (List.replicate n req)).1 =
      List.replicate n (handle_request fs req) ∧
    (runRequests fs (List.replicate n req)).2 = fs := by
  refine ⟨?_, runRequests_snd fs _⟩
  rw [runRequests_fst, List.map_replicate]

/-- C6 witness: three repetitions of `GET /` over an empty filesystem. -/
theorem get_idempotent_witness :
    ({ method := Method.GET, path := "/" } : Request).method = Method.GET ∧
    ((runRequests [] (List.replicate 3 { method := Method.GET, path := "/" })).1 =
       List.replicate 3 (handle_request [] { method := Method.GET, path := "/" }) ∧
     (runRequests [] (List.replicate 3 { method := Method.GET, path := "/" })).2 = []) :=
  ⟨rfl, get_idempotent [] { method := Method.GET, path := "/" } 3 rfl⟩

/-- C7: serving any sequence of requests leaves the filesystem exactly as it
was: every handler is a pure reader. -/
theorem requests_read_only (fs : FileSystem) (reqs : List Request) :
    (runRequests fs reqs).2 = fs :=
  runRequests_snd fs reqs

/-- C8: a `GET` that resolves to an existing file whose read fails with an
I/O error other than file-not-found is answered 500, and the serving loop
continues: the remaining requests are answered exactly as they would be on
their own, over the unchanged filesystem. -/
theorem unreadable_file_500 (fs : FileSystem) (p t j : String) (rest : List Request)
    (hrm : route_match p = some t)
    (hsj : safe_join "public" t = some j)
    (hfl : fsLookup fs j = some FileNode.unreadable) :
    (handle_request fs { method := Method.GET, path := p }).status = 500 ∧
    runRequests fs ({ method := Method.GET, path := p } :: rest) =
      (handle_request fs { method := Method.GET, path := p } :: (runRequests fs rest).1,
       fs) := by
  constructor
  · simp only [handle_request, hrm, serve_static, send_from_directory, hsj, hfl]
    rfl
  · cases hrr : runRequests fs rest with
    | mk resps fs2 =>
      have hsnd := runRequests_snd fs rest
      rw [hrr] at hsnd
      simp only at hsnd
      simp only [runRequests, hrr]
      rw [hsnd]

/-- C8 witness: `public/secret.txt` exists but cannot be opened; `GET
/secret.txt` is 500 and a following `GET /` is still served. -/
theorem unreadable_file_500_witness :
    route_match "/secret.txt" = some "secret.txt" ∧
    safe_join "public" "secret.txt" = some "public/secret.txt" ∧
    fsLookup [("public/secret.txt", FileNode.unreadable)] "public/secret.txt" =
      some FileNode.unreadable ∧
    ((handle_request [("public/secret.txt", FileNode.unreadable)]
        { method := Method.GET, path := "/secret.txt" }).status = 500 ∧
     runRequests [("public/secret.txt", FileNode.unreadable)]
        ({ method := Method.GET, path := "/secret.txt" } ::
         [{ method := Method.GET, path := "/" }]) =
       (handle_request [("public/secret.txt", FileNode.unreadable)]
          { method := Method.GET, path := "/secret.txt" } ::
        (runRequests [("public/secret.txt", FileNode.unreadable)]
          [{ method := Method.GET, path := "/" }]).1,
        [("public/secret.txt", FileNode.unreadable)])) :=
  ⟨by decide, by decide, by decide,
   unreadable_file_500 [("public/secret.txt", FileNode.unreadable)]
     "/secret.txt" "secret.txt" "public/secret.txt"
     [{ method := Method.GET, path := "/" }] (by decide) (by decide) (by decide)⟩

/-- C9: a request path whose parent-directory segments would resolve outside
the root is answered with status exactly 404 (Werkzeug's `safe_join` returns
`None` and `send_from_directory` raises `NotFound`), settling the spec's
403-or-404 choice. -/
theorem traversal_is_exactly_404 (fs : FileSystem) (p : String)
    (h : escapesRoot p = true) :
    (handle_request fs { method := Method.GET, path := p }).status = 404 := by
  rw [handle_escape fs p h]
  rfl

/-- C9 witness: `GET /../../etc/passwd` is 404 even when `etc/passwd`
exists outside the root. -/
theorem traversal_is_exactly_404_witness :
    escapesRoot "/../../etc/passwd" = true ∧
    (handle_request [("etc/passwd", FileNode.file [1])]
        { method := Method.GET, path := "/../../etc/passwd" }).status = 404 :=
  ⟨by decide,
   traversal_is_exactly_404 [("etc/passwd", FileNode.file [1])]
     "/../../etc/passwd" (by decide)⟩

/-- C10: on a path matched by a registered rule, a method other than `GET`
and the automatic `HEAD`/`OPTIONS` is answered 405, and the response is the
same whatever the filesystem holds: no file is read. -/
theorem non_get_is_405 (fs fs2 : FileSystem) (p t : String) (m : Method)
    (hrm : route_match p = some t)
    (h1 : m ≠ Method.GET) (h2 : m ≠ Method.HEAD) (h3 : m ≠ Method.OPTIONS) :
    (handle_request fs { method := m, path := p }).status = 405 ∧
    handle_request fs { method := m, path := p } =
      handle_request fs2 { method := m, path := p } := by
  cases m with
  | GET => exact absurd rfl h1
  | HEAD => exact absurd rfl h2
  | OPTIONS => exact absurd rfl h3
  | POST => simp [handle_request, hrm, methodNotAllowedResp]
  | PUT => simp [handle_request, hrm, methodNotAllowedResp]
  | DELETE => simp [handle_request, hrm, methodNotAllowedResp]
  | PATCH => simp [handle_request, hrm, methodNotAllowedResp]

/-- C10 witness: `POST /` is 405 and independent of the filesystem. -/
theorem non_get_is_405_witness :
    route_match "/" = some "index.html" ∧
    ((handle_request [("public/index.html", FileNode.file [1])]
        { method := Method.POST, path := "/" }).status = 405 ∧
     handle_request [("public/index.html", FileNode.file [1])]
        { method := Method.POST, path := "/" } =
       handle_request [] { method := Method.POST, path := "/" }) :=
  ⟨by decide,
   non_get_is_405 [("public/index.html", FileNode.file [1])] [] "/" "index.html"
     Method.POST (by decide) (by decide) (by decide) (by decide)⟩
